import Mathlib

/-!
Shallow embedding of the weather-cache / refresh-policy / scheduler core of
`weather_time_display.py` (pi-epaper-display).

Conventions of the embedding:
* Wall-clock instants are integers counting seconds (`Int`); the Python code
  compares `datetime.now() - cache_time < timedelta(seconds=3600)`, which is
  the strict comparison `now - timestamp < 3600` on seconds here.
* The persisted cache file is modelled by `Option RawCache`: `none` means the
  file does not exist (or reading it raises an I/O error, which Python folds
  into the same `None` result via the surrounding `try`); the constructors of
  `RawCache` enumerate the shapes the persisted content can take, including
  the corrupt ones (malformed JSON, missing or unparsable `timestamp`,
  missing `weather_data`).
* Exceptions caught by a `try`/`except` that returns `None` are modelled by
  the function returning `none` on the corresponding input.
* Python floats carried by the provider payload are modelled as rationals;
  `round` is Python's round-half-to-even.
-/

/-- `WEATHER_UPDATE_INTERVAL = 3600` seconds (60 minutes), the freshness window. -/
def WEATHER_UPDATE_INTERVAL : Int := 3600

/-- Python's built-in `round` on a real number to an integer: round half to
even (banker's rounding). Written over the numerator/denominator of the
rational (with `f = ⌊x⌋` and fractional part `rNum / d`): the fractional
part is below, above, or exactly one half according to `2 * rNum` versus
`d`. -/
def pythonRound (x : ℚ) : Int :=
  let n : Int := x.num
  let d : Int := (x.den : Int)
  let f : Int := Int.ediv n d
  let rNum : Int := n - f * d
  if 2 * rNum < d then f
  else if d < 2 * rNum then f + 1
  else if Int.emod f 2 = 0 then f else f + 1

/-- The `weather_info` dict built by `get_weather` on a successful fetch
(and the `weather_data` value persisted in the cache file). -/
structure WeatherInfo where
  temp : Int
  feels_like : Int
  temp_max : Int
  temp_min : Int
  description : String
  uv_index : Int
  sunrise : String
  sunset : String
  city : String
deriving DecidableEq

/-- Shapes the persisted cache file content can take when the file exists.
`entry` is a well-formed record `{'timestamp': ..., 'weather_data': ...}`
with a parsable timestamp; the other constructors are the corrupt shapes:
content that is not valid JSON, a record missing the `timestamp` key, a
record whose `timestamp` does not parse with `datetime.fromisoformat`, and a
record with a good timestamp but no `weather_data` key. -/
inductive RawCache where
  | malformedJson : RawCache
  | missingTimestamp : RawCache
  | badTimestamp : RawCache
  | missingWeatherData (timestamp : Int) : RawCache
  | entry (timestamp : Int) (weather_data : WeatherInfo) : RawCache
deriving DecidableEq

/-- `load_weather_cache()`: returns the cached `weather_data` if the file
exists, parses, and `now - timestamp < 3600` seconds; returns `None` when the
file is absent, on any exception (malformed content, unparsable timestamp,
missing keys, I/O error), and when the entry is not fresh. -/
def load_weather_cache (now : Int) (fs : Option RawCache) : Option WeatherInfo :=
  match fs with
  | none => none
  | some RawCache.malformedJson => none
  | some RawCache.missingTimestamp => none
  | some RawCache.badTimestamp => none
  | some (RawCache.missingWeatherData _) => none
  | some (RawCache.entry ts wd) =>
      if now - ts < WEATHER_UPDATE_INTERVAL then some wd else none

/-- `save_weather_cache(weather_data)`: writes
`{'timestamp': now, 'weather_data': weather_data}`, fully overwriting the
file. The body is wrapped in `try`/`except`, so a failed write (modelled by
the `fails` flag) is swallowed: the function returns the (unchanged) file
state instead of raising. -/
def save_weather_cache (now : Int) (weather_data : WeatherInfo) (fails : Bool)
    (fs : Option RawCache) : Option RawCache :=
  if fails then fs else some (RawCache.entry now weather_data)

/-- The `current_weather` block of the provider JSON payload. -/
structure CurrentWeather where
  temperature : ℚ
  weathercode : Int
  time : String
deriving DecidableEq

/-- The `daily` block of the provider JSON payload. -/
structure DailyData where
  temperature_2m_max : List ℚ
  temperature_2m_min : List ℚ
  sunrise : List String
  sunset : List String
  uv_index_max : List ℚ
deriving DecidableEq

/-- The `hourly` block of the provider JSON payload. -/
structure HourlyData where
  apparent_temperature : List ℚ
deriving DecidableEq

/-- A provider JSON payload; each top-level block is `Option` because a
missing key raises `KeyError`, which `get_weather`'s `except` turns into
`None`. -/
structure ApiData where
  current_weather : Option CurrentWeather
  daily : Option DailyData
  hourly : Option HourlyData
deriving DecidableEq

/-- Outcome of `requests.get(url, timeout=10)`: either an exception
(network error / timeout) or a response with a status code and a JSON body. -/
inductive ProviderResult where
  | exn : ProviderResult
  | resp (status : Nat) (data : ApiData) : ProviderResult
deriving DecidableEq

/-- The optional `config` module: `LATITUDE`, `LONGITUDE`, `CITY`.
`none` models the `ImportError` branch. -/
structure Config where
  LATITUDE : ℚ
  LONGITUDE : ℚ
  CITY : String
deriving DecidableEq

/-- The `weather_codes` lookup table mapping WMO codes to labels. -/
def weather_codes (c : Int) : Option String :=
  if c = 0 then some "Clear"
  else if c = 1 then some "Mostly Clear"
  else if c = 2 then some "Partly Cloudy"
  else if c = 3 then some "Overcast"
  else if c = 45 then some "Fog"
  else if c = 48 then some "Rime Fog"
  else if c = 51 then some "Light Drizzle"
  else if c = 53 then some "Drizzle"
  else if c = 55 then some "Heavy Drizzle"
  else if c = 61 then some "Light Rain"
  else if c = 63 then some "Rain"
  else if c = 65 then some "Heavy Rain"
  else if c = 71 then some "Light Snow"
  else if c = 73 then some "Snow"
  else if c = 75 then some "Heavy Snow"
  else if c = 80 then some "Rain Showers"
  else if c = 81 then some "Rain Showers"
  else if c = 82 then some "Heavy Showers"
  else if c = 95 then some "Thunderstorm"
  else none

/-- Split a character list at occurrences of `'T'` (structural recursion, so
the kernel can evaluate it on concrete inputs). -/
def splitOnT : List Char → List (List Char)
  | [] => [[]]
  | c :: rest =>
    let r := splitOnT rest
    if c = 'T' then [] :: r
    else
      match r with
      | [] => [[c]]
      | h :: t => (c :: h) :: t

/-- The digit value of a character, `none` if it is not a decimal digit. -/
def digitVal (c : Char) : Option Nat :=
  if c.isDigit then some (c.toNat - 48) else none

/-- Read a nonempty all-digit character list as a natural number. -/
def charsToNatAux : List Char → Nat → Option Nat
  | [], acc => some acc
  | c :: rest, acc =>
    match digitVal c with
    | some d => charsToNatAux rest (acc * 10 + d)
    | none => none

/-- Read a character list as a natural number; `none` if empty or not all
digits. -/
def charsToNat? (l : List Char) : Option Nat :=
  match l with
  | [] => none
  | _ => charsToNatAux l 0

/-- The part of `datetime.fromisoformat` used on the payload: the text after
the `T` separator; `none` models a `ValueError` on input without exactly one
date/time separator. -/
def isoAfterT (s : String) : Option (List Char) :=
  match splitOnT s.data with
  | [_, t] => some t
  | _ => none

/-- `datetime.fromisoformat(s).hour`: the two digits after the `T`;
`none` models the `ValueError` on unparsable input. -/
def iso_hour (s : String) : Option Nat :=
  match isoAfterT s with
  | some t => charsToNat? (t.take 2)
  | none => none

/-- `datetime.fromisoformat(s).strftime("%H:%M")`: the five characters
`HH:MM` after the `T`; `none` models a `ValueError` on too-short input. -/
def iso_hm (s : String) : Option String :=
  match isoAfterT s with
  | some t => if 5 ≤ t.length then some (String.mk (t.take 5)) else none
  | none => none

/-- The body of `get_weather`'s 200-status branch: extracts the blocks,
computes `current_hour`, maps the weather code, parses sunrise/sunset, and
builds the `weather_info` dict. Any missing key, out-of-range `[0]` index or
parse failure raises, which the surrounding `except` turns into `None`,
modelled by this function returning `none`. The `feels_like` field uses the
hourly apparent temperature at `current_hour` only when
`current_hour < len(hourly['apparent_temperature'])`, else the rounded
current temperature. The `city` field is the literal string `'Melbourne'`. -/
def buildWeatherInfo (data : ApiData) : Option WeatherInfo := do
  let current ← data.current_weather
  let daily ← data.daily
  let hourly ← data.hourly
  let current_hour ← iso_hour current.time
  let sunrise_str ← daily.sunrise.get? 0
  let sunset_str ← daily.sunset.get? 0
  let sunrise_time ← iso_hm sunrise_str
  let sunset_time ← iso_hm sunset_str
  let tmax ← daily.temperature_2m_max.get? 0
  let tmin ← daily.temperature_2m_min.get? 0
  let uv ← daily.uv_index_max.get? 0
  let feels : Int :=
    match hourly.apparent_temperature.get? current_hour with
    | some a => pythonRound a
    | none => pythonRound current.temperature
  some {
    temp := pythonRound current.temperature
    feels_like := feels
    temp_max := pythonRound tmax
    temp_min := pythonRound tmin
    description := (weather_codes current.weathercode).getD "Unknown"
    uv_index := pythonRound uv
    sunrise := sunrise_time
    sunset := sunset_time
    city := "Melbourne" }

/-- Result of one `get_weather()` call: the returned value, the cache file
state afterwards, and whether the provider (network) was invoked. -/
structure GetWeatherResult where
  result : Option WeatherInfo
  fs : Option RawCache
  providerCalled : Bool
deriving DecidableEq

/-- `get_weather()`: load from cache first; if that yields a (truthy) value,
return it without any network call. Otherwise invoke the provider: on a
request exception return `None`; on status 200 build the `weather_info`
dict (`None` on malformed payload), save it to cache (best effort) and
return it; on any other status return `None`. The config module supplies
coordinates and a city name (`cfg = none` is the `ImportError` fallback),
but none of these reach the returned snapshot. -/
def get_weather (now : Int) (fs : Option RawCache) (provider : ProviderResult)
    (saveFails : Bool) (cfg : Option Config) : GetWeatherResult :=
  match load_weather_cache now fs with
  | some cached => { result := some cached, fs := fs, providerCalled := false }
  | none =>
    let _city_name : String := (cfg.map Config.CITY).getD "Melbourne"
    match provider with
    | ProviderResult.exn => { result := none, fs := fs, providerCalled := true }
    | ProviderResult.resp status data =>
      if status = 200 then
        match buildWeatherInfo data with
        | some weather_info =>
            { result := some weather_info
              fs := save_weather_cache now weather_info saveFails fs
              providerCalled := true }
        | none => { result := none, fs := fs, providerCalled := true }
      else { result := none, fs := fs, providerCalled := true }

/-- A wall-clock reading as used by the scheduler loop (`datetime.now()`). -/
structure ClockTime where
  hour : Nat
  minute : Nat
  second : Nat
deriving DecidableEq

/-- The wait computed at the bottom of each `run_continuous` cycle:
`seconds_until_next_minute = 60 - now.second`. -/
def seconds_until_next_minute (now : ClockTime) : Nat :=
  60 - now.second

/-- A fresh cache entry exists: the file holds a well-formed entry whose
timestamp is within the freshness window of `now`. -/
def has_fresh_entry (now : Int) (fs : Option RawCache) : Prop :=
  ∃ ts wd, fs = some (RawCache.entry ts wd) ∧ now - ts < WEATHER_UPDATE_INTERVAL

/-- The provider call fails from `get_weather`'s point of view: a request
exception, a non-200 status, or a 200 payload missing expected fields. -/
def providerFails : ProviderResult → Prop
  | ProviderResult.exn => True
  | ProviderResult.resp status data => status ≠ 200 ∨ buildWeatherInfo data = none

/-! ### Concrete fixtures used by the witnesses -/

/-- A sample snapshot, as built from `samplePayload` (and reused as a cached
`weather_data` value). -/
def sampleWeatherInfo : WeatherInfo :=
  { temp := 18, feels_like := 17, temp_max := 20, temp_min := 10,
    description := "Clear", uv_index := 5, sunrise := "06:30", sunset := "19:30",
    city := "Melbourne" }

/-- A well-formed provider payload; `buildWeatherInfo` turns it into
`sampleWeatherInfo`. -/
def samplePayload : ApiData :=
  { current_weather := some { temperature := 18, weathercode := 0, time := "2024-01-01T15:30" }
    daily := some { temperature_2m_max := [20], temperature_2m_min := [10],
                    sunrise := ["2024-01-01T06:30"], sunset := ["2024-01-01T19:30"],
                    uv_index_max := [5] }
    hourly := some { apparent_temperature := List.replicate 24 (17 : ℚ) } }

/-- A `current_weather` block at hour 15 with temperature 18.7. -/
def sampleShortCurrent : CurrentWeather :=
  { temperature := mkRat 187 10, weathercode := 0, time := "2024-01-01T15:30" }

/-- A payload whose hourly apparent-temperature list (length 3) is shorter
than the current hour index (15). -/
def sampleShortPayload : ApiData :=
  { current_weather := some sampleShortCurrent
    daily := some { temperature_2m_max := [20], temperature_2m_min := [10],
                    sunrise := ["2024-01-01T06:30"], sunset := ["2024-01-01T19:30"],
                    uv_index_max := [5] }
    hourly := some { apparent_temperature := [1, 2, 3] } }

/-- The snapshot built from `sampleShortPayload`: its `feels_like` falls back
to the rounded current temperature (round(18.7) = 19). -/
def sampleShortFetched : WeatherInfo :=
  { temp := 19, feels_like := 19, temp_max := 20, temp_min := 10,
    description := "Clear", uv_index := 5, sunrise := "06:30", sunset := "19:30",
    city := "Melbourne" }

/-- A config module carrying a non-Melbourne `CITY`. -/
def sampleConfig : Config :=
  { LATITUDE := -37, LONGITUDE := 144, CITY := "Sydney" }

/-! ### Helper lemmas -/

/-- `load_weather_cache` yields a value exactly on a well-formed fresh entry. -/
theorem load_weather_cache_eq_some_iff (now : Int) (fs : Option RawCache) (wd : WeatherInfo) :
    load_weather_cache now fs = some wd ↔
      ∃ ts, fs = some (RawCache.entry ts wd) ∧ now - ts < WEATHER_UPDATE_INTERVAL := by
  cases fs with
  | none => simp [load_weather_cache]
  | some c =>
    cases c with
    | malformedJson => simp [load_weather_cache]
    | missingTimestamp => simp [load_weather_cache]
    | badTimestamp => simp [load_weather_cache]
    | missingWeatherData ts => simp [load_weather_cache]
    | entry ts wd' =>
      simp only [load_weather_cache, Option.some.injEq, RawCache.entry.injEq]
      constructor
      · intro h
        split at h
        · exact ⟨ts, ⟨rfl, Option.some.inj h⟩, by assumption⟩
        · exact absurd h (by simp)
      · rintro ⟨ts', ⟨rfl, rfl⟩, hlt⟩
        simp [hlt]

/-- When the cache misses, `get_weather` always goes to the provider. -/
theorem get_weather_providerCalled_of_miss (now : Int) (fs : Option RawCache)
    (p : ProviderResult) (sf : Bool) (cfg : Option Config)
    (h : load_weather_cache now fs = none) :
    (get_weather now fs p sf cfg).providerCalled = true := by
  unfold get_weather
  rw [h]
  cases p with
  | exn => rfl
  | resp status data =>
    by_cases hs : status = 200
    · cases hb : buildWeatherInfo data <;> simp [hs, hb]
    · simp [hs]

/-- A snapshot built by the 200-status branch always carries the literal
city label `"Melbourne"`. -/
theorem buildWeatherInfo_city (data : ApiData) (wi : WeatherInfo)
    (h : buildWeatherInfo data = some wi) : wi.city = "Melbourne" := by
  unfold buildWeatherInfo at h
  simp only [bind, Option.bind_eq_some, Option.some.injEq] at h
  obtain ⟨_, _, _, _, _, _, _, _, _, _, _, _, _, _, _, _, _, _, _, _, _, _, rfl⟩ := h
  rfl

/-- When no fresh well-formed entry exists, the cache load misses. -/
theorem load_weather_cache_eq_none_of_not_fresh (now : Int) (fs : Option RawCache)
    (h : ¬ has_fresh_entry now fs) : load_weather_cache now fs = none := by
  cases hl : load_weather_cache now fs with
  | none => rfl
  | some wd =>
    obtain ⟨ts, hfs, hlt⟩ := (load_weather_cache_eq_some_iff now fs wd).mp hl
    exact absurd ⟨ts, wd, hfs, hlt⟩ h

/-! ### Claims -/

/-- C1: for every instant `now`, `get_weather` returns the cached snapshot
without invoking the provider whenever a cache entry exists, parses, and
satisfies `now - fetched_at < 3600` seconds; in every other case (no entry,
unparsable entry, or entry at least 3600 seconds old) the provider is
invoked. -/
theorem C1_freshness_invariant (now : Int) (fs : Option RawCache) (p : ProviderResult)
    (sf : Bool) (cfg : Option Config) :
    (∀ ts wd, fs = some (RawCache.entry ts wd) → now - ts < WEATHER_UPDATE_INTERVAL →
        (get_weather now fs p sf cfg).result = some wd ∧
        (get_weather now fs p sf cfg).providerCalled = false) ∧
    (¬ has_fresh_entry now fs →
        (get_weather now fs p sf cfg).providerCalled = true) := by
  constructor
  · rintro ts wd rfl hlt
    have hload : load_weather_cache now (some (RawCache.entry ts wd)) = some wd := by
      simp [load_weather_cache, hlt]
    unfold get_weather
    rw [hload]
    exact ⟨rfl, rfl⟩
  · intro h
    exact get_weather_providerCalled_of_miss now fs p sf cfg
      (load_weather_cache_eq_none_of_not_fresh now fs h)

/-- Witness for C1 at concrete inputs: a 600-second-old entry is served from
cache with no provider call; at exactly 3600 seconds of age the provider is
invoked. -/
theorem C1_freshness_invariant_witness :
    (get_weather 600 (some (RawCache.entry 0 sampleWeatherInfo)) ProviderResult.exn false
        none).result = some sampleWeatherInfo ∧
    (get_weather 600 (some (RawCache.entry 0 sampleWeatherInfo)) ProviderResult.exn false
        none).providerCalled = false ∧
    (get_weather 3600 (some (RawCache.entry 0 sampleWeatherInfo)) ProviderResult.exn false
        none).providerCalled = true := by
  refine ⟨?_, ?_, ?_⟩
  · exact ((C1_freshness_invariant 600 _ ProviderResult.exn false none).1
      0 sampleWeatherInfo rfl (by decide)).1
  · exact ((C1_freshness_invariant 600 _ ProviderResult.exn false none).1
      0 sampleWeatherInfo rfl (by decide)).2
  · refine (C1_freshness_invariant 3600 _ ProviderResult.exn false none).2 ?_
    rintro ⟨ts, wd, heq, hlt⟩
    injection heq with h2
    injection h2 with h3 h4
    subst h3
    exact absurd hlt (by decide)

/-- C2: whenever a refresh is attempted (the cache load misses) and the
provider call fails (exception, non-200 status, or malformed payload),
`get_weather` returns `None` — never a stale snapshot, even though an
expired entry may still sit on disk. -/
theorem C2_no_stale_on_failure (now : Int) (fs : Option RawCache) (p : ProviderResult)
    (sf : Bool) (cfg : Option Config)
    (hmiss : load_weather_cache now fs = none) (hfail : providerFails p) :
    (get_weather now fs p sf cfg).result = none := by
  unfold get_weather
  rw [hmiss]
  cases p with
  | exn => rfl
  | resp status data =>
    simp only [providerFails] at hfail
    by_cases hs : status = 200
    · rcases hfail with h200 | hbuild
      · exact absurd hs h200
      · simp [hs, hbuild]
    · simp [hs]

/-- Witness for C2: an entry exactly 3600 seconds old sits on disk, the
provider raises, and the result is `None`. -/
theorem C2_no_stale_on_failure_witness :
    (get_weather 3600 (some (RawCache.entry 0 sampleWeatherInfo)) ProviderResult.exn false
        none).result = none :=
  C2_no_stale_on_failure 3600 (some (RawCache.entry 0 sampleWeatherInfo)) ProviderResult.exn
    false none (by decide) trivial

/-- C3: every structurally invalid persisted state (malformed JSON, missing
or unparsable timestamp, missing snapshot field) and every read I/O error
(folded with the absent file into the `none` file state) makes
`load_weather_cache` return `None`, exactly as with no cache file; being a
total function, it raises nothing. -/
theorem C3_corrupt_cache_resilience (now ts : Int) :
    load_weather_cache now none = none ∧
    load_weather_cache now (some RawCache.malformedJson) = load_weather_cache now none ∧
    load_weather_cache now (some RawCache.missingTimestamp) = load_weather_cache now none ∧
    load_weather_cache now (some RawCache.badTimestamp) = load_weather_cache now none ∧
    load_weather_cache now (some (RawCache.missingWeatherData ts))
        = load_weather_cache now none :=
  ⟨rfl, rfl, rfl, rfl, rfl⟩

/-- C4: a failing save is swallowed inside `save_weather_cache` (the file
state is simply left as it was, nothing propagates), and the value
`get_weather` returns is independent of whether the save succeeded. -/
theorem C4_save_failure_swallowed (now : Int) (fs : Option RawCache) (p : ProviderResult)
    (cfg : Option Config) (wd : WeatherInfo) (sf sf' : Bool) :
    save_weather_cache now wd true fs = fs ∧
    (get_weather now fs p sf cfg).result = (get_weather now fs p sf' cfg).result := by
  refine ⟨rfl, ?_⟩
  unfold get_weather
  cases hload : load_weather_cache now fs with
  | some cached => rfl
  | none =>
    cases p with
    | exn => rfl
    | resp status data =>
      by_cases hs : status = 200
      · cases hb : buildWeatherInfo data <;> simp [hs, hb]
      · simp [hs]

/-- C5: starting with no cache file, a successful fetch at `now` returns the
parsed snapshot and leaves the cache file holding it with `fetched_at = now`;
a second call 600 seconds later returns the same snapshot from cache without
invoking the provider. -/
theorem C5_fetch_then_cached (now : Int) (data : ApiData) (wi : WeatherInfo)
    (cfg cfg2 : Option Config) (p2 : ProviderResult) (sf2 : Bool)
    (hb : buildWeatherInfo data = some wi) :
    (get_weather now none (ProviderResult.resp 200 data) false cfg).result = some wi ∧
    (get_weather now none (ProviderResult.resp 200 data) false cfg).fs
        = some (RawCache.entry now wi) ∧
    (get_weather (now + 600) (some (RawCache.entry now wi)) p2 sf2 cfg2).result = some wi ∧
    (get_weather (now + 600) (some (RawCache.entry now wi)) p2 sf2 cfg2).providerCalled
        = false := by
  have hfresh : now + 600 - now < WEATHER_UPDATE_INTERVAL := by
    simp only [WEATHER_UPDATE_INTERVAL]
    omega
  have h2 : load_weather_cache (now + 600) (some (RawCache.entry now wi)) = some wi := by
    simp only [load_weather_cache]
    rw [if_pos hfresh]
  refine ⟨?_, ?_, ?_, ?_⟩
  · simp [get_weather, load_weather_cache, hb]
  · simp [get_weather, load_weather_cache, hb, save_weather_cache]
  · unfold get_weather
    rw [h2]
  · unfold get_weather
    rw [h2]

/-- Witness for C5 at the concrete scenario: empty cache, payload
`samplePayload` at `now = 0`, second call at 600 seconds. -/
theorem C5_fetch_then_cached_witness :
    (get_weather 0 none (ProviderResult.resp 200 samplePayload) false none).result
        = some sampleWeatherInfo ∧
    (get_weather 0 none (ProviderResult.resp 200 samplePayload) false none).fs
        = some (RawCache.entry 0 sampleWeatherInfo) ∧
    (get_weather (0 + 600) (some (RawCache.entry 0 sampleWeatherInfo)) ProviderResult.exn
        false none).result = some sampleWeatherInfo ∧
    (get_weather (0 + 600) (some (RawCache.entry 0 sampleWeatherInfo)) ProviderResult.exn
        false none).providerCalled = false :=
  C5_fetch_then_cached 0 samplePayload sampleWeatherInfo none none ProviderResult.exn false
    (by decide)

/-- C6: saving `s1` then `s2` (both writes succeeding) leaves exactly the
single record `{timestamp: t2, weather_data: s2}` on disk, so a later load
can only ever retrieve `s2` (or nothing, once it has expired). -/
theorem C6_overwrite_keeps_second (s1 s2 : WeatherInfo) (t1 t2 now : Int)
    (fs : Option RawCache) :
    save_weather_cache t2 s2 false (save_weather_cache t1 s1 false fs)
        = some (RawCache.entry t2 s2) ∧
    (load_weather_cache now
          (save_weather_cache t2 s2 false (save_weather_cache t1 s1 false fs)) = none ∨
     load_weather_cache now
          (save_weather_cache t2 s2 false (save_weather_cache t1 s1 false fs)) = some s2) := by
  refine ⟨rfl, ?_⟩
  by_cases h : now - t2 < WEATHER_UPDATE_INTERVAL
  · right
    simp [save_weather_cache, load_weather_cache, h]
  · left
    simp [save_weather_cache, load_weather_cache, h]

/-- C7: each cycle's wait is exactly `60 - now.second` seconds, recomputed
from the live clock; at second 7 it is 53 seconds, at second 59 it is
1 second. -/
theorem C7_wait_formula (now : ClockTime) :
    seconds_until_next_minute now = 60 - now.second ∧
    (now.second = 7 → seconds_until_next_minute now = 53) ∧
    (now.second = 59 → seconds_until_next_minute now = 1) := by
  refine ⟨rfl, ?_, ?_⟩ <;> intro h <;> simp [seconds_until_next_minute, h]

/-- Witness for C7 at the two clock readings named by the spec. -/
theorem C7_wait_formula_witness :
    seconds_until_next_minute ⟨12, 0, 7⟩ = 53 ∧
    seconds_until_next_minute ⟨12, 0, 59⟩ = 1 :=
  ⟨(C7_wait_formula ⟨12, 0, 7⟩).2.1 rfl, (C7_wait_formula ⟨12, 0, 59⟩).2.2 rfl⟩

/-- C8: whenever the provider path runs (cache miss) and yields a snapshot,
that snapshot's `city` field is the literal `"Melbourne"`, whatever `CITY`
the optional config module supplies. -/
theorem C8_city_always_Melbourne (now : Int) (fs : Option RawCache) (p : ProviderResult)
    (sf : Bool) (cfg : Option Config) (wi : WeatherInfo)
    (hmiss : load_weather_cache now fs = none)
    (hres : (get_weather now fs p sf cfg).result = some wi) :
    wi.city = "Melbourne" := by
  unfold get_weather at hres
  rw [hmiss] at hres
  cases p with
  | exn => exact absurd hres (by simp)
  | resp status data =>
    by_cases hs : status = 200
    · subst hs
      cases hb : buildWeatherInfo data with
      | none => simp [hb] at hres
      | some w =>
        simp only [if_pos rfl, hb] at hres
        obtain rfl : w = wi := by simpa using hres
        exact buildWeatherInfo_city data w hb
    · simp [hs] at hres

/-- Witness for C8: a config with `CITY = "Sydney"` still yields a snapshot
labelled Melbourne. -/
theorem C8_city_always_Melbourne_witness : sampleWeatherInfo.city = "Melbourne" :=
  C8_city_always_Melbourne 0 none (ProviderResult.resp 200 samplePayload) false
    (some sampleConfig) sampleWeatherInfo rfl (by decide)

/-- C9: when the current-hour index reaches past the hourly
apparent-temperature list, the built snapshot's `feels_like` is the rounded
current temperature (the guarded fallback), and no out-of-range access
occurs (`buildWeatherInfo` is total). -/
theorem C9_feels_like_fallback (data : ApiData) (cw : CurrentWeather) (hl : HourlyData)
    (h : Nat) (wi : WeatherInfo)
    (hcw : data.current_weather = some cw)
    (hhl : data.hourly = some hl)
    (hhour : iso_hour cw.time = some h)
    (hlen : hl.apparent_temperature.length ≤ h)
    (hb : buildWeatherInfo data = some wi) :
    wi.feels_like = pythonRound cw.temperature := by
  have hget : hl.apparent_temperature[h]? = none := by
    rw [← List.get?_eq_getElem?]
    exact List.get?_eq_none.mpr hlen
  unfold buildWeatherInfo at hb
  rw [hcw, hhl] at hb
  simp only [bind, Option.some_bind, Option.bind_eq_some, Option.some.injEq] at hb
  obtain ⟨daily, hdaily, ch, hch, sr, hsr, ss, hss, srt, hsrt, sst, hsst,
    tmax, htmax, tmin, htmin, uv, huv, rfl⟩ := hb
  obtain rfl : ch = h := by
    rw [hhour] at hch
    exact (Option.some.inj hch).symm
  simp [hget]

/-- Witness for C9: hour index 15 against an hourly list of length 3 yields
`feels_like = round(18.7) = 19`, the rounded current temperature. -/
theorem C9_feels_like_fallback_witness :
    sampleShortFetched.feels_like = pythonRound sampleShortCurrent.temperature :=
  C9_feels_like_fallback sampleShortPayload sampleShortCurrent
    { apparent_temperature := [1, 2, 3] } 15 sampleShortFetched rfl rfl (by decide)
    (by decide) (by decide)

/-- C10: for every second-of-minute reading 0–59, the computed wait is
between 1 and 60 seconds inclusive, so each loop iteration sleeps a strictly
positive duration. -/
theorem C10_wait_bounds (now : ClockTime) (h : now.second < 60) :
    1 ≤ seconds_until_next_minute now ∧ seconds_until_next_minute now ≤ 60 := by
  unfold seconds_until_next_minute
  omega

/-- Witness for C10 at second 59 (wait 1) applied through the bounds
theorem at second 30. -/
theorem C10_wait_bounds_witness :
    1 ≤ seconds_until_next_minute ⟨12, 0, 30⟩ ∧
    seconds_until_next_minute ⟨12, 0, 30⟩ ≤ 60 :=
  C10_wait_bounds ⟨12, 0, 30⟩ (by decide)
